import Mathlib

/-!
Verification of the SVN MCP server's command execution and output
translation layer.

The definitions below are a shallow embedding of the TypeScript sources:

* `src/common/utils.ts` — `buildAuthArgs`, `escapeArgument`,
  `executeSvnCommand`, `validatePath`, `validateSvnUrl`, `cleanOutput`,
  `parseInfoOutput`, `parseStatusOutput`, `parseLogOutput` (the current
  revision of the file: the one with the `noAuthCache` option, the
  drive-letter-aware `validatePath`, and the `Sin mensaje` placeholder).
* `src/tools/svn-service.ts` — `SvnService.getInfo`, `getStatus`, `getLog`,
  `checkout`, `commit`, `healthCheck`, `handleSvnError` (the revision the
  test-suite exercises: URL-aware `getInfo` and the `--show-updates`
  fallback in `getStatus`).

JavaScript strings are modelled as Lean `String`s (lists of characters);
JS `number` command-line inputs as `Int`; `undefined`/optional values as
`Option`; promise rejection as `Except SvnError`.  Subprocess execution is
modelled by an explicit behaviour oracle (`ProcessBehavior`), so theorems
quantify over every possible outcome of the external `svn` executable.
The two divergent `normalizePath` implementations present in the sources
are abstracted as an explicit `normalize : String → String` parameter;
every theorem below holds for an arbitrary such function.
-/

set_option maxRecDepth 100000

namespace Svn

/-! ### JavaScript string primitives

`String.prototype.trim`, `split`, `join`, `includes`, `parseInt` and the
`\s` regex class, reproduced character-by-character so that proofs can
compute. -/

/-- The JS `\s` / `trim` whitespace class (ASCII whitespace, NBSP, and the
Unicode space separators used by the `\s` regex class). -/
def isJsWhitespace (c : Char) : Bool :=
  c = ' ' || c = '\t' || c = '\n' || c = '\r' || c = Char.ofNat 11 || c = Char.ofNat 12 ||
  c = Char.ofNat 0xa0 || c = Char.ofNat 0x1680 ||
  (0x2000 ≤ c.toNat && c.toNat ≤ 0x200a) ||
  c = Char.ofNat 0x2028 || c = Char.ofNat 0x2029 || c = Char.ofNat 0x202f ||
  c = Char.ofNat 0x205f || c = Char.ofNat 0x3000 || c = Char.ofNat 0xfeff

/-- `String.prototype.trim` on a character list. -/
def jsTrimList (cs : List Char) : List Char :=
  ((cs.dropWhile isJsWhitespace).reverse.dropWhile isJsWhitespace).reverse

/-- `String.prototype.trim`. -/
def jsTrim (s : String) : String := ⟨jsTrimList s.data⟩

/-- `String.prototype.includes`. -/
def jsIncludes (s sub : String) : Bool := decide (sub.data <:+: s.data)

/-- JS truthiness of an optional string (`undefined` and `""` are falsy). -/
def jsTruthyS : Option String → Bool
  | none => false
  | some s => s != ""

/-- `text.split('\n')` on a character list: every `'\n'` separates, empty
pieces are kept. -/
def splitLinesAux : List Char → List (List Char)
  | [] => [[]]
  | c :: r =>
    if c = '\n' then [] :: splitLinesAux r
    else
      match splitLinesAux r with
      | b :: bs => (c :: b) :: bs
      | [] => [[c]]

/-- `text.split('\n')`. -/
def splitLines (s : String) : List String :=
  (splitLinesAux s.data).map (fun l => ⟨l⟩)

/-- `line.split(': ')` on a character list (left-to-right, non-overlapping
occurrences of the two-character separator). -/
def splitColonSpaceAux : List Char → List (List Char)
  | [] => [[]]
  | [c] => [[c]]
  | ':' :: ' ' :: r => [] :: splitColonSpaceAux r
  | c :: r =>
    match splitColonSpaceAux r with
    | b :: bs => (c :: b) :: bs
    | [] => [[c]]

/-- `line.split(': ')`. -/
def splitColonSpace (s : String) : List String :=
  (splitColonSpaceAux s.data).map (fun l => ⟨l⟩)

/-- `Array.prototype.join(sep)`. -/
def joinWith (sep : String) : List String → String
  | [] => ""
  | [x] => x
  | x :: r => x ++ sep ++ joinWith sep r

/-- Decimal digits to a natural number. -/
def digitsToNat (ds : List Char) : Nat :=
  ds.foldl (fun a c => a * 10 + (c.toNat - 48)) 0

/-- `parseInt(s, 10)`: skip leading whitespace, optional sign, then a
maximal run of decimal digits; `none` models the JS `NaN` result when no
digit is found. -/
def jsParseInt (s : String) : Option Int :=
  let cs := s.data.dropWhile isJsWhitespace
  let signAndRest : Int × List Char :=
    match cs with
    | '-' :: r => (-1, r)
    | '+' :: r => (1, r)
    | r => (1, r)
  let digits := signAndRest.2.takeWhile Char.isDigit
  if digits = [] then none
  else some (signAndRest.1 * (digitsToNat digits : Int))

/-! ### Configuration and authentication arguments (`src/common/utils.ts`) -/

/-- `SvnConfig` from `src/common/types.ts`, as populated by
`createSvnConfig`. -/
structure SvnConfig where
  svnPath : String
  workingDirectory : String
  username : Option String := none
  password : Option String := none
  timeout : Nat := 30000
deriving DecidableEq

/-- `buildAuthArgs(config, { noAuthCache })`: `--username`/`--password`
when configured (JS truthiness), always `--non-interactive`, and
`--no-auth-cache` when requested. -/
def buildAuthArgs (config : SvnConfig) (noAuthCache : Bool) : List String :=
  (match config.username with
   | some u => if u != "" then ["--username", u] else []
   | none => [])
  ++ (match config.password with
      | some p => if p != "" then ["--password", p] else []
      | none => [])
  ++ ["--non-interactive"]
  ++ (if noAuthCache then ["--no-auth-cache"] else [])

/-- `executeSvnCommand`'s `finalArgs = [...args, ...buildAuthArgs(...)]`:
the authentication flags are appended after everything the caller built,
positional arguments included. -/
def svnFinalArgs (config : SvnConfig) (args : List String) (noAuthCache : Bool) : List String :=
  args ++ buildAuthArgs config noAuthCache

/-- The diagnostic command line `` `${config.svnPath} ${finalArgs.join(' ')}` ``. -/
def svnCommandString (config : SvnConfig) (finalArgs : List String) : String :=
  config.svnPath ++ " " ++ joinWith " " finalArgs

/-- `${code}` for the `close` event's exit code (`null` when killed). -/
def jsExitCode : Option Int → String
  | none => "null"
  | some n => toString n

/-- Message of the error rejected on a non-zero exit code:
`` `SVN command failed with code ${code}: ${command}` ``. -/
def svnFailureMessage (config : SvnConfig) (args : List String) (noAuthCache : Bool)
    (code : Option Int) : String :=
  "SVN command failed with code " ++ jsExitCode code ++ ": " ++
    svnCommandString config (svnFinalArgs config args noAuthCache)

/-- Message of the error rejected when the timeout fires:
`` `Command timeout after ${config.timeout}ms: ${command}` ``. -/
def svnTimeoutMessage (config : SvnConfig) (args : List String) (noAuthCache : Bool) : String :=
  "Command timeout after " ++ toString config.timeout ++ "ms: " ++
    svnCommandString config (svnFinalArgs config args noAuthCache)

/-- Message of the error rejected when `spawn` itself errors:
`` `Failed to execute SVN command: ${error.message}` ``. -/
def svnSpawnErrorMessage (errMessage : String) : String :=
  "Failed to execute SVN command: " ++ errMessage

/-! ### The spawn invocation (`executeSvnCommand`) -/

/-- The call `spawn(config.svnPath, finalArgs, spawnOptions)` together with
the spawn options that matter for the injection claims. -/
structure SpawnCall where
  file : String
  args : List String
  shell : Bool
  cwd : String
deriving DecidableEq

/-- The spawn invocation `executeSvnCommand` performs: the caller's
arguments plus the authentication arguments, with `shell: true` taken
verbatim from `spawnOptions` in the source. -/
def executeSvnSpawnCall (config : SvnConfig) (args : List String) (noAuthCache : Bool) :
    SpawnCall :=
  { file := config.svnPath
    args := svnFinalArgs config args noAuthCache
    shell := true
    cwd := config.workingDirectory }

/-- `escapeArgument` from `src/common/utils.ts`: wrap in double quotes
(doubling embedded quotes) when the argument contains whitespace or one of
the special characters in the source's regex. -/
def escapeSpecials : List Char :=
  ['&', '(', ')', '<', '>', '[', ']', Char.ofNat 123, Char.ofNat 125,
   '^', '=', ';', '!', Char.ofNat 39, '+', ',', Char.ofNat 96, '~', '%']

/-- A character that triggers quoting in `escapeArgument`. -/
def escapeNeeded (c : Char) : Bool := isJsWhitespace c || escapeSpecials.contains c

/-- `arg.replace(/"/g, '""')` on a character list. -/
def dupQuotesAux : List Char → List Char
  | [] => []
  | c :: r =>
    if c = Char.ofNat 34 then c :: c :: dupQuotesAux r else c :: dupQuotesAux r

/-- `escapeArgument(arg)` — defined in the source but never applied to any
argument that is handed to `spawn`. -/
def escapeArgument (arg : String) : String :=
  if arg.data.any escapeNeeded then
    ⟨Char.ofNat 34 :: (dupQuotesAux arg.data ++ [Char.ofNat 34])⟩
  else arg

/-! ### Validators (`validateSvnUrl`, `validatePath`) -/

/-- Lower-case an ASCII letter (the `i` regex flag on the scheme). -/
def asciiLower (c : Char) : Char :=
  if 'A' ≤ c ∧ c ≤ 'Z' then Char.ofNat (c.toNat + 32) else c

/-- A character the regex `.` matches (anything but a line terminator). -/
def isRegexDot (c : Char) : Bool :=
  !(c = '\n' || c = '\r' || c = Char.ofNat 0x2028 || c = Char.ofNat 0x2029)

/-- The scheme prefixes of `/^(svn|https?|file):\/\/.+/i`. -/
def schemePrefixes : List String := ["svn://", "https://", "http://", "file://"]

/-- `validateSvnUrl(url)`: a case-insensitive scheme prefix followed by at
least one character that `.` matches. -/
def validateSvnUrl (url : String) : Bool :=
  schemePrefixes.any (fun p =>
    ((url.data.take p.length).map asciiLower == p.data) &&
    (match url.data.drop p.length with
     | c :: _ => isRegexDot c
     | [] => false))

/-- A character of the forbidden class `[<>:"|?*]` in `validatePath`. -/
def invalidPathChar (c : Char) : Bool :=
  c = '<' || c = '>' || c = ':' || c = Char.ofNat 34 || c = '|' || c = '?' || c = '*'

/-- An ASCII letter (the `[A-Za-z]` of the drive-prefix pattern). -/
def isAsciiLetter (c : Char) : Bool :=
  ('A' ≤ c && c ≤ 'Z') || ('a' ≤ c && c ≤ 'z')

/-- The drive-prefix test `/^[A-Za-z]:[\\\/]/`. -/
def windowsAbsolutePathPattern (s : String) : Bool :=
  match s.data with
  | d :: c :: sl :: _ => isAsciiLetter d && c = ':' && (sl = '\\' || sl = '/')
  | _ => false

/-- `validatePath(filePath)` (current revision): on a Windows absolute
path, check only the part after the drive letter; otherwise check the
whole string. -/
def validatePath (filePath : String) : Bool :=
  if windowsAbsolutePathPattern filePath then
    !((filePath.data.drop 2).any invalidPathChar)
  else
    !(filePath.data.any invalidPathChar)

/-! ### Process execution model -/

/-- `SvnError` from `src/common/types.ts`. -/
structure SvnError where
  message : String
  code : Option Int := none
  stderr : Option String := none
  command : Option String := none
deriving DecidableEq

instance {ε α : Type _} [DecidableEq ε] [DecidableEq α] : DecidableEq (Except ε α) := fun x y =>
  match x, y with
  | .ok a, .ok b => if h : a = b then isTrue (by rw [h]) else isFalse (by simp [h])
  | .error a, .error b => if h : a = b then isTrue (by rw [h]) else isFalse (by simp [h])
  | .ok _, .error _ => isFalse (by simp)
  | .error _, .ok _ => isFalse (by simp)

/-- The response envelope `SvnResponse<T>` from `src/common/types.ts`. -/
structure SvnResponse (α : Type) where
  success : Bool
  data : Option α := none
  error : Option String := none
  command : String
  workingDirectory : String
  executionTime : Option Nat := none
deriving DecidableEq

/-- What the spawned process does: time out, fail to spawn, or close with
an exit code after producing output. -/
inductive ProcessBehavior where
  | timeout
  | spawnError (msg : String)
  | closed (code : Option Int) (stdout stderr : String) (elapsed : Nat)
deriving DecidableEq

/-- `cleanOutput`: normalize CRLF and lone CR to LF. -/
def normEolAux : List Char → List Char
  | [] => []
  | '\r' :: '\n' :: r => '\n' :: normEolAux r
  | '\r' :: r => '\n' :: normEolAux r
  | c :: r => c :: normEolAux r

/-- `cleanOutput(output)` from `src/common/utils.ts`. -/
def cleanOutput (output : String) : String := jsTrim ⟨normEolAux output.data⟩

/-- `executeSvnCommand(config, args, options)` under a given process
behaviour: resolves with a successful envelope on exit code `0`, and
rejects with an `SvnError` on non-zero exit, timeout, or spawn error. -/
def executeSvnCommand (config : SvnConfig) (args : List String) (noAuthCache : Bool)
    (pb : ProcessBehavior) : Except SvnError (SvnResponse String) :=
  let command := svnCommandString config (svnFinalArgs config args noAuthCache)
  match pb with
  | .timeout => .error { message := svnTimeoutMessage config args noAuthCache }
  | .spawnError m => .error { message := svnSpawnErrorMessage m, command := some command }
  | .closed code stdout stderr elapsed =>
    if code = some 0 then
      .ok { success := true
            data := some (jsTrim stdout)
            command := command
            workingDirectory := config.workingDirectory
            executionTime := some elapsed }
    else
      .error { message := svnFailureMessage config args noAuthCache code
               code := code
               stderr := some (jsTrim stderr)
               command := some command }

/-- An execution environment: the behaviour of the external executable for
each argument list the service may pass. -/
def SvnExecEnv : Type := List String → ProcessBehavior

/-- A service-layer call to `executeSvnCommand` (the service never sets
`noAuthCache`). -/
def runSvn (env : SvnExecEnv) (config : SvnConfig) (args : List String) :
    Except SvnError (SvnResponse String) :=
  executeSvnCommand config args false (env args)

/-! ### Output parsers (`src/common/utils.ts`) -/

/-- `SvnStatus` from `src/common/types.ts` (the parser populates only
`path` and `status`). -/
structure SvnStatus where
  path : String
  status : String
deriving DecidableEq

/-- The `SVN_STATUS_CODES` table from `src/common/types.ts`. -/
def svnStatusCode (c : Char) : Option String :=
  if c = ' ' then some "none"
  else if c = 'A' then some "added"
  else if c = 'D' then some "deleted"
  else if c = 'M' then some "modified"
  else if c = 'R' then some "replaced"
  else if c = 'C' then some "conflicted"
  else if c = 'X' then some "external"
  else if c = 'I' then some "ignored"
  else if c = '?' then some "unversioned"
  else if c = '!' then some "missing"
  else if c = '~' then some "obstructed"
  else none

/-- `parseStatusOutput(output)`: non-blank lines of at least 8 characters;
first character through the status-code table (defaulting to `unknown`),
path from column 8 on, trimmed. -/
def parseStatusOutput (output : String) : List SvnStatus :=
  ((splitLines output).filter (fun l => jsTrim l != "")).filterMap (fun line =>
    if line.data.length < 8 then none
    else
      some { path := jsTrim ⟨line.data.drop 8⟩
             status := (svnStatusCode (line.data.headD ' ')).getD "unknown" })

/-- `SvnInfo` from `src/common/types.ts`.  In the source every field of
the `Partial<SvnInfo>` may remain `undefined` (outer `Option` = the field
was never assigned), and the numeric fields receive the result of
`parseInt` which may be `NaN` (inner `Option`: `none` = `NaN`). -/
structure SvnInfo where
  path : Option String := none
  workingCopyRootPath : Option String := none
  url : Option String := none
  relativeUrl : Option String := none
  repositoryRoot : Option String := none
  repositoryUuid : Option String := none
  revision : Option (Option Int) := none
  nodeKind : Option String := none
  schedule : Option String := none
  lastChangedAuthor : Option String := none
  lastChangedRev : Option (Option Int) := none
  lastChangedDate : Option String := none
  textLastUpdated : Option String := none
  checksum : Option String := none
deriving DecidableEq

/-- One iteration of `parseInfoOutput`'s loop: split the line at `': '`,
trim the key, rejoin and trim the value, and assign the matching field. -/
def infoStep (info : SvnInfo) (line : String) : SvnInfo :=
  let parts := splitColonSpace line
  let key := jsTrim (parts.headD "")
  let value := jsTrim (joinWith ": " parts.tail)
  if key = "Path" then { info with path := some value }
  else if key = "Working Copy Root Path" then { info with workingCopyRootPath := some value }
  else if key = "URL" then { info with url := some value }
  else if key = "Relative URL" then { info with relativeUrl := some value }
  else if key = "Repository Root" then { info with repositoryRoot := some value }
  else if key = "Repository UUID" then { info with repositoryUuid := some value }
  else if key = "Revision" then { info with revision := some (jsParseInt value) }
  else if key = "Node Kind" then { info with nodeKind := some value }
  else if key = "Schedule" then { info with schedule := some value }
  else if key = "Last Changed Author" then { info with lastChangedAuthor := some value }
  else if key = "Last Changed Rev" then { info with lastChangedRev := some (jsParseInt value) }
  else if key = "Last Changed Date" then { info with lastChangedDate := some value }
  else if key = "Text Last Updated" then { info with textLastUpdated := some value }
  else if key = "Checksum" then { info with checksum := some value }
  else info

/-- `parseInfoOutput(output)`: fold the line handler over the lines; the
partially filled record is returned unconditionally (`info as SvnInfo`). -/
def parseInfoOutput (output : String) : SvnInfo :=
  (splitLines output).foldl infoStep {}

/-- `SvnLogEntry` from `src/common/types.ts`. -/
structure SvnLogEntry where
  revision : Nat
  author : String
  date : String
  message : String
deriving DecidableEq

/-- The 72-dash separator line of `svn log` output (`/^-{72}$/gm`). -/
def sep72 : String := ⟨List.replicate 72 '-'⟩

/-- `\s*\|` after the revision digits: skip whitespace, require a pipe. -/
def stripWsPipe (cs : List Char) : Option (List Char) :=
  match cs.dropWhile isJsWhitespace with
  | '|' :: r => some r
  | _ => none

/-- One `\s*([^|]+?)\s*\|` segment of the log header regex, composed with
the `.trim()` the source applies to the capture: succeeds when a pipe
follows and at least one character precedes it; yields the trimmed
segment and the rest after the pipe. -/
def takeSegment (cs : List Char) : Option (String × List Char) :=
  let seg := cs.takeWhile (fun c => c != '|')
  match cs.dropWhile (fun c => c != '|') with
  | '|' :: r => if seg = [] then none else some (⟨jsTrimList seg⟩, r)
  | _ => none

/-- The header pattern `/^r(\d+)\s*\|\s*([^|]+?)\s*\|\s*([^|]+?)\s*\|\s*(.*)$/`
applied to a block's first line, returning revision, trimmed author and
trimmed date (the `details` capture is unused by the source). -/
def logHeaderMatch (line : String) : Option (Nat × String × String) :=
  match line.data with
  | 'r' :: rest =>
    let digits := rest.takeWhile Char.isDigit
    let afterDigits := rest.dropWhile Char.isDigit
    if digits = [] then none
    else
      match stripWsPipe afterDigits with
      | none => none
      | some r1 =>
        match takeSegment r1 with
        | none => none
        | some (author, r2) =>
          match takeSegment r2 with
          | none => none
          | some (date, r3) =>
            if (r3.dropWhile isJsWhitespace).all isRegexDot then
              some (digitsToNat digits, author, date)
            else none
  | _ => none

/-- The body of `parseLogOutput`'s loop for one split piece: trim, split
into lines, require at least two, match the header, and build the entry
(empty message becomes the `Sin mensaje` placeholder). -/
def parseLogBlock (p : String) : Option SvnLogEntry :=
  let lines := splitLines (jsTrim p)
  if lines.length < 2 then none
  else
    match logHeaderMatch (lines.headD "") with
    | none => none
    | some (rev, author, date) =>
      let message := jsTrim (joinWith "\n" (lines.drop 2))
      some { revision := rev, author := author, date := date
             message := if message = "" then "Sin mensaje" else message }

/-- The split on `/^-{72}$/gm` expressed on the line list: a line equal to
the 72-dash separator starts a new piece.  (The JS split leaves the
newlines adjacent to the separator inside the pieces; since every piece is
trimmed before use, grouping whole lines yields the same entries.) -/
def splitSepLines : List String → List (List String)
  | [] => [[]]
  | l :: ls =>
    if l = sep72 then [] :: splitSepLines ls
    else
      match splitSepLines ls with
      | b :: bs => (l :: b) :: bs
      | [] => [[l]]

/-- `parseLogOutput(output)` (current revision): empty input yields no
entries; otherwise split on the separator lines, drop blank pieces, and
keep every piece whose header matches. -/
def parseLogOutput (output : String) : List SvnLogEntry :=
  if jsTrim output = "" then []
  else
    (((splitSepLines (splitLines output)).map (joinWith "\n")).filter
        (fun p => jsTrim p != "")).filterMap parseLogBlock

/-! ### The service layer (`src/tools/svn-service.ts`) -/

/-- `handleSvnError(error, operation)`: ordered substring classification of
the error message; the classified message is wrapped in a fresh
`SvnError` and rethrown. -/
def handleSvnError (config : SvnConfig) (e : SvnError) (operation : String) : SvnError :=
  if jsIncludes e.message "E155007" || jsIncludes e.message "not a working copy" then
    { message := "El directorio '" ++ config.workingDirectory ++
        "' no es un working copy de SVN. Asegúrate de estar en un directorio que contenga un repositorio SVN o hacer checkout primero." }
  else if jsIncludes e.message "E175002" || jsIncludes e.message "Unable to connect" then
    { message := "No se puede conectar al repositorio SVN. Verifica tu conexión a internet y las credenciales." }
  else if jsIncludes e.message "E170001" || jsIncludes e.message "Authentication failed" then
    { message := "Error de autenticación. Verifica tu nombre de usuario y contraseña SVN." }
  else if jsIncludes e.message "E155036" || jsIncludes e.message "working copy locked" then
    { message := "El working copy está bloqueado. Ejecuta 'svn cleanup' para resolverlo." }
  else if jsIncludes e.message "E200030" || jsIncludes e.message "sqlite" then
    { message := "Error en la base de datos del working copy. Ejecuta 'svn cleanup' para repararlo." }
  else if (match e.stderr with | some s => s != "" | none => false : Bool) then
    { message := "Failed to " ++ operation ++ ": " ++ e.stderr.getD "" }
  else
    { message := "Failed to " ++ operation ++ ": " ++ e.message }

/-- The argument list `getInfo` builds: URL rules first, then local-path
rules with normalization, otherwise the `Invalid path or URL` rejection. -/
def getInfoArgs (normalize : String → String) (path : Option String) :
    Except SvnError (List String) :=
  match path with
  | none => .ok ["info"]
  | some p =>
    if p = "" then .ok ["info"]
    else if validateSvnUrl p then .ok ["info", p]
    else if validatePath p then .ok ["info", normalize p]
    else .error { message := "Invalid path or URL: " ++ p }

/-- The successful `getInfo` envelope. -/
def infoEnvelope (r : SvnResponse String) : SvnResponse SvnInfo :=
  { success := true
    data := some (parseInfoOutput (cleanOutput (r.data.getD "")))
    command := r.command
    workingDirectory := r.workingDirectory
    executionTime := r.executionTime }

/-- `SvnService.getInfo(path)` under an execution environment. -/
def getInfo (env : SvnExecEnv) (normalize : String → String) (config : SvnConfig)
    (path : Option String) : Except SvnError (SvnResponse SvnInfo) :=
  match getInfoArgs normalize path with
  | .error e => .error (handleSvnError config e "get SVN info")
  | .ok args =>
    match runSvn env config args with
    | .error e => .error (handleSvnError config e "get SVN info")
    | .ok r => .ok (infoEnvelope r)

/-- The argument list `getStatus` builds before the `--show-updates`
decision. -/
def statusBaseArgs (normalize : String → String) (path : Option String) :
    Except SvnError (List String) :=
  match path with
  | none => .ok ["status"]
  | some p =>
    if p = "" then .ok ["status"]
    else if validatePath p then .ok ["status", normalize p]
    else .error { message := "Invalid path: " ++ p }

/-- The successful `getStatus` envelope. -/
def statusEnvelope (r : SvnResponse String) : SvnResponse (List SvnStatus) :=
  { success := true
    data := some (parseStatusOutput (cleanOutput (r.data.getD "")))
    command := r.command
    workingDirectory := r.workingDirectory
    executionTime := r.executionTime }

/-- `SvnService.getStatus(path, showAll)`: with `showAll`, first try the
argument list with `--show-updates`; if that invocation rejects, run the
local-only list, whose outcome is what continues. -/
def getStatus (env : SvnExecEnv) (normalize : String → String) (config : SvnConfig)
    (path : Option String) (showAll : Bool) : Except SvnError (SvnResponse (List SvnStatus)) :=
  match statusBaseArgs normalize path with
  | .error e => .error (handleSvnError config e "get SVN status")
  | .ok args =>
    let attempt : Except SvnError (SvnResponse String) :=
      if showAll then
        match runSvn env config (args ++ ["--show-updates"]) with
        | .ok r => .ok r
        | .error _ => runSvn env config args
      else runSvn env config args
    match attempt with
    | .error e => .error (handleSvnError config e "get SVN status")
    | .ok r => .ok (statusEnvelope r)

/-- The argument list `getLog` builds: `--limit` only for a truthy,
strictly positive limit (the JS `limit && limit > 0`), `--revision` for a
truthy revision, then the validated, normalized path. -/
def getLogArgs (normalize : String → String) (path : Option String) (limit : Option Int)
    (revision : Option String) : Except SvnError (List String) :=
  let limitTokens : List String :=
    match limit with
    | some n => if 0 < n then ["--limit", toString n] else []
    | none => []
  let revisionTokens : List String :=
    match revision with
    | some r => if r != "" then ["--revision", r] else []
    | none => []
  match path with
  | none => .ok (["log"] ++ limitTokens ++ revisionTokens)
  | some p =>
    if p = "" then .ok (["log"] ++ limitTokens ++ revisionTokens)
    else if validatePath p then .ok (["log"] ++ limitTokens ++ revisionTokens ++ [normalize p])
    else .error { message := "Invalid path: " ++ p }

/-- `checkout`'s `revision` option, `number | 'HEAD'` in the source. -/
inductive CheckoutRevision where
  | num (n : Int)
  | head
deriving DecidableEq

/-- `options.revision.toString()`. -/
def checkoutRevisionToString : CheckoutRevision → String
  | .num n => toString n
  | .head => "HEAD"

/-- JS truthiness of the revision option (`0` is falsy). -/
def checkoutRevisionTruthy : CheckoutRevision → Bool
  | .num n => n != 0
  | .head => true

/-- `SvnCheckoutOptions` from `src/common/types.ts`. -/
structure SvnCheckoutOptions where
  revision : Option CheckoutRevision := none
  depth : Option String := none
  force : Bool := false
  ignoreExternals : Bool := false
deriving DecidableEq

/-- The argument list `SvnService.checkout` hands to `executeSvnCommand`:
subcommand, option flags in source order, then the URL and the validated,
normalized target path. -/
def checkoutArgs (normalize : String → String) (url : String) (path : Option String)
    (options : SvnCheckoutOptions) : Except SvnError (List String) :=
  if validateSvnUrl url then
    let args := ["checkout"]
      ++ (match options.revision with
          | some r =>
            if checkoutRevisionTruthy r then ["--revision", checkoutRevisionToString r] else []
          | none => [])
      ++ (match options.depth with
          | some d => if d != "" then ["--depth", d] else []
          | none => [])
      ++ (if options.force then ["--force"] else [])
      ++ (if options.ignoreExternals then ["--ignore-externals"] else [])
      ++ [url]
    match path with
    | none => .ok args
    | some p =>
      if p = "" then .ok args
      else if validatePath p then .ok (args ++ [normalize p])
      else .error { message := "Invalid path: " ++ p }
  else .error { message := "Invalid SVN URL: " ++ url }

/-- `SvnCommitOptions` from `src/common/types.ts`. -/
structure SvnCommitOptions where
  message : Option String := none
  file : Option String := none
  force : Bool := false
  keepLocks : Bool := false
  noUnlock : Bool := false
  targets : Option (List String) := none
deriving DecidableEq

/-- The argument list `SvnService.commit` builds: the commit message is
pushed verbatim after `--message`; explicit paths are validated then
normalized, otherwise `options.targets` is used. -/
def commitArgs (normalize : String → String) (options : SvnCommitOptions)
    (paths : Option (List String)) : Except SvnError (List String) :=
  if !(jsTruthyS options.message) && !(jsTruthyS options.file) then
    .error { message := "Commit message is required" }
  else
    let args := ["commit"]
      ++ (match options.message with
          | some m => if m != "" then ["--message", m] else []
          | none => [])
      ++ (match options.file with
          | some f => if f != "" then ["--file", normalize f] else []
          | none => [])
      ++ (if options.force then ["--force"] else [])
      ++ (if options.keepLocks then ["--keep-locks"] else [])
      ++ (if options.noUnlock then ["--no-unlock"] else [])
    match paths with
    | some ps =>
      if ps.length > 0 then
        match ps.find? (fun p => !(validatePath p)) with
        | some bad => .error { message := "Invalid path: " ++ bad }
        | none => .ok (args ++ ps.map normalize)
      else
        match options.targets with
        | some ts => .ok (args ++ ts.map normalize)
        | none => .ok args
    | none =>
      match options.targets with
      | some ts => .ok (args ++ ts.map normalize)
      | none => .ok args

/-! ### Health check (`SvnService.healthCheck`) -/

/-- Outcomes of the sub-steps `healthCheck` performs, in order:
`validateSvnInstallation` (which never throws), the `--version --quiet`
command, `isWorkingCopy` (which never throws), and `this.getInfo()`. -/
structure HealthEnv where
  validateResult : Bool
  versionCmd : Except SvnError (SvnResponse String)
  workingCopyValid : Bool
  infoResult : Except SvnError Unit

/-- The `data` payload of a successful health check. -/
structure HealthData where
  svnAvailable : Bool
  version : Option String := none
  workingCopyValid : Option Bool := none
  repositoryAccessible : Option Bool := none
deriving DecidableEq

/-- `SvnService.healthCheck()`: the whole body runs inside a `try` whose
`catch` converts any rejection into a `success: false` envelope; the
failure of `getInfo` is caught by an inner `try` and only clears
`repositoryAccessible`. -/
def healthCheck (env : HealthEnv) (config : SvnConfig) : SvnResponse HealthData :=
  let body : Except SvnError (SvnResponse HealthData) :=
    if !env.validateResult then
      .ok { success := false
            error := some "SVN is not available in the system PATH"
            command := "svn --version"
            workingDirectory := config.workingDirectory }
    else
      match env.versionCmd with
      | .error e => .error e
      | .ok versionResponse =>
        let workingCopyValid := env.workingCopyValid
        let repositoryAccessible :=
          if workingCopyValid then
            match env.infoResult with
            | .ok _ => true
            | .error _ => false
          else false
        .ok { success := true
              data := some { svnAvailable := true
                             version := some (jsTrim (versionResponse.data.getD ""))
                             workingCopyValid := some workingCopyValid
                             repositoryAccessible := some repositoryAccessible }
              command := "health-check"
              workingDirectory := config.workingDirectory }
  match body with
  | .ok r => r
  | .error e =>
    { success := false
      error := some e.message
      command := "health-check"
      workingDirectory := config.workingDirectory }

/-! ### Concrete fixtures used by witnesses and counterexamples -/

/-- A configuration with credentials, as `createSvnConfig` would build it
from `SVN_USERNAME`/`SVN_PASSWORD`. -/
def cfg0 : SvnConfig :=
  { svnPath := "svn", workingDirectory := "C:/ws"
    username := some "alice", password := some "secret123", timeout := 30000 }

/-- A configuration without credentials. -/
def cfgAnon : SvnConfig := { svnPath := "svn", workingDirectory := "/ws" }

/-- An environment in which every invocation fails with a network error. -/
def envFail : SvnExecEnv := fun _ =>
  .closed (some 1) "" "svn: E170013: unable to connect to repository" 12

/-- An environment in which the remote-aware status invocation fails but
the local-only one succeeds. -/
def envStatus : SvnExecEnv := fun args =>
  if args = ["status", "--show-updates"] then
    .closed (some 1) "" "svn: E175002: Unable to connect" 20
  else
    .closed (some 0) "M       src/app.ts" "" 10

/-- Health-check sub-step outcomes where everything succeeds except the
repository-access check (`getInfo` rejects). -/
def envC : HealthEnv :=
  { validateResult := true
    versionCmd := .ok { success := true, data := some "1.14.2"
                        command := "svn --version --quiet"
                        workingDirectory := "C:/ws", executionTime := some 5 }
    workingCopyValid := true
    infoResult := .error { message := "E175002 Unable to connect" } }

/-! ### Shared lemmas -/

/-- Membership in a joined list is an infix of the join. -/
theorem joinWith_data_mem_infix (sep : String) (l : List String) (a : String) (h : a ∈ l) :
    a.data <:+: (joinWith sep l).data := by
  induction l with
  | nil => cases h
  | cons x r ih =>
    cases r with
    | nil =>
      rcases List.mem_singleton.mp h with rfl
      exact List.infix_rfl
    | cons y t =>
      rcases List.mem_cons.mp h with rfl | hmem
      · show a.data <:+: (a ++ sep ++ joinWith sep (y :: t)).data
        refine List.IsPrefix.isInfix ?_
        simp [String.data_append]
      · obtain ⟨u, v, huv⟩ := ih hmem
        show a.data <:+: (x ++ sep ++ joinWith sep (y :: t)).data
        exact ⟨x.data ++ sep.data ++ u, v, by simp [String.data_append, ← huv]⟩

/-- Prepending more text preserves an infix occurrence. -/
theorem substring_append_left (a b : String) (l : List Char) (h : l <:+: b.data) :
    l <:+: (a ++ b).data := by
  obtain ⟨u, v, huv⟩ := h
  exact ⟨a.data ++ u, v, by simp [String.data_append, ← huv]⟩

/-- A configured password occurs verbatim inside the reconstructed
diagnostic command line. -/
theorem password_infix_command (config : SvnConfig) (args : List String) (noAuthCache : Bool)
    (p : String) (hp : config.password = some p) :
    p.data <:+: (svnCommandString config (svnFinalArgs config args noAuthCache)).data := by
  by_cases hp0 : p = ""
  · subst hp0
    exact ⟨[], _, rfl⟩
  · have hmem : p ∈ svnFinalArgs config args noAuthCache := by
      unfold svnFinalArgs buildAuthArgs
      rw [hp]
      have : (p != "") = true := by simpa using hp0
      simp [this]
    have hj := joinWith_data_mem_infix " " _ _ hmem
    exact substring_append_left (config.svnPath ++ " ") _ _ hj

/-! ### C1 — error messages and authentication secrets -/

/-- C1 counterexample: the claim states that the error surfaced on a
failed invocation never contains the configured raw password; but for the
configuration `cfg0` the failure message embeds the reconstructed command
line, which spells out `--password secret123` verbatim. -/
theorem failureMessage_contains_password_counterexample :
    ("secret123".data <:+: (svnFailureMessage cfg0 ["info"] false (some 1)).data) ∧
    svnFailureMessage cfg0 ["info"] false (some 1) =
      "SVN command failed with code 1: svn info --username alice --password secret123 --non-interactive" := by
  constructor
  · decide
  · decide

/-- C1 (amended): whenever a password is configured, the raw password
occurs verbatim in both the non-zero-exit failure message and the timeout
message (each embeds the reconstructed command line, which includes the
`--password` value); only the spawn-error message omits the command line
from its text. -/
theorem svn_error_messages_contain_password
    (config : SvnConfig) (args : List String) (noAuthCache : Bool) (code : Option Int)
    (p : String) (hp : config.password = some p) :
    (p.data <:+: (svnFailureMessage config args noAuthCache code).data) ∧
    (p.data <:+: (svnTimeoutMessage config args noAuthCache).data) ∧
    (∀ m, svnSpawnErrorMessage m = "Failed to execute SVN command: " ++ m) := by
  refine ⟨?_, ?_, fun m => rfl⟩
  · exact substring_append_left ("SVN command failed with code " ++ jsExitCode code ++ ": ") _ _
      (password_infix_command config args noAuthCache p hp)
  · exact substring_append_left ("Command timeout after " ++ toString config.timeout ++ "ms: ") _ _
      (password_infix_command config args noAuthCache p hp)

/-- C1 witness: the amended theorem applied to `cfg0` and a checkout
invocation. -/
theorem svn_error_messages_contain_password_witness :
    ("secret123".data <:+: (svnFailureMessage cfg0 ["checkout", "http://h/r"] false (some 1)).data) ∧
    ("secret123".data <:+: (svnTimeoutMessage cfg0 ["checkout", "http://h/r"] false).data) ∧
    (∀ m, svnSpawnErrorMessage m = "Failed to execute SVN command: " ++ m) :=
  svn_error_messages_contain_password cfg0 ["checkout", "http://h/r"] false (some 1) "secret123" rfl

/-! ### C2 — shell interpretation and escaping -/

/-- C2 counterexample: the claim states that arguments are passed to the
OS as a true array, never through a shell-interpreted string, with no
un-escaped value a shell could read as a second command; but
`executeSvnCommand` spawns with `shell: true`, a commit message containing
`;` reaches the argument list verbatim, and the (unused) `escapeArgument`
would have had to change it. -/
theorem spawn_shell_counterexample :
    (executeSvnSpawnCall cfg0 ["commit", "--message", "fix; rm -rf x"] false).shell = true ∧
    commitArgs id { message := some "fix; rm -rf x" } none =
      .ok ["commit", "--message", "fix; rm -rf x"] ∧
    "fix; rm -rf x" ∈ (executeSvnSpawnCall cfg0 ["commit", "--message", "fix; rm -rf x"] false).args ∧
    escapeArgument "fix; rm -rf x" ≠ "fix; rm -rf x" := by
  refine ⟨rfl, by decide, by decide, by decide⟩

/-- C2 (amended): the argument list is handed to `spawn` element-wise, but
the spawn options set `shell: true`, and no escaping is applied anywhere
on the way: the commit message appears verbatim in the built argument
list, and the final spawn arguments are exactly the caller's tokens
followed by the authentication tokens. -/
theorem spawn_uses_shell_and_unescaped_args
    (config : SvnConfig) (args : List String) (noAuthCache : Bool)
    (normalize : String → String) (options : SvnCommitOptions) (paths : Option (List String))
    (m : String) (res : List String)
    (hm : options.message = some m) (hm0 : m ≠ "")
    (hres : commitArgs normalize options paths = .ok res) :
    (executeSvnSpawnCall config args noAuthCache).shell = true ∧
    (executeSvnSpawnCall config args noAuthCache).args = args ++ buildAuthArgs config noAuthCache ∧
    m ∈ res := by
  refine ⟨rfl, rfl, ?_⟩
  unfold commitArgs at hres
  rw [hm] at hres
  have hmt : (m != "") = true := by simpa using hm0
  simp only [jsTruthyS, hmt, Bool.not_true, Bool.false_and, Bool.false_eq_true, if_false,
    if_true, Bool.not_eq_true'] at hres
  have hbase : m ∈ ["commit"] ++ ["--message", m]
      ++ (match options.file with
          | some f => if f != "" then ["--file", normalize f] else []
          | none => [])
      ++ (if options.force then ["--force"] else [])
      ++ (if options.keepLocks then ["--keep-locks"] else [])
      ++ (if options.noUnlock then ["--no-unlock"] else []) := by
    simp
  rcases paths with _ | ps <;> dsimp only at hres
  · rcases hts : options.targets with _ | ts <;> rw [hts] at hres <;>
      simp only [Except.ok.injEq] at hres <;> subst hres
    · exact hbase
    · exact List.mem_append_left _ hbase
  · by_cases hlen : ps.length > 0
    · rw [if_pos hlen] at hres
      rcases hfind : ps.find? (fun p => !(validatePath p)) with _ | bad <;> rw [hfind] at hres
      · simp only [Except.ok.injEq] at hres
        subst hres
        exact List.mem_append_left _ hbase
      · cases hres
    · rw [if_neg hlen] at hres
      rcases hts : options.targets with _ | ts <;> rw [hts] at hres <;>
        simp only [Except.ok.injEq] at hres <;> subst hres
      · exact hbase
      · exact List.mem_append_left _ hbase

/-- C2 witness: the amended theorem applied to a concrete commit whose
message contains shell metacharacters. -/
theorem spawn_uses_shell_and_unescaped_args_witness :
    (executeSvnSpawnCall cfg0 ["commit", "--message", "a && del x"] false).shell = true ∧
    (executeSvnSpawnCall cfg0 ["commit", "--message", "a && del x"] false).args =
      ["commit", "--message", "a && del x"] ++ buildAuthArgs cfg0 false ∧
    "a && del x" ∈ ["commit", "--message", "a && del x"] :=
  spawn_uses_shell_and_unescaped_args cfg0 ["commit", "--message", "a && del x"] false id
    { message := some "a && del x" } none "a && del x" ["commit", "--message", "a && del x"]
    rfl (by decide) (by decide)

/-! ### C3 — token ordering -/

/-- C3 counterexample: the claim states the final token list is
subcommand, option flags, authentication flags, then positional arguments
last; but for a checkout of `http://h/r` into `wc` under `cfg0` the final
list puts the positional arguments before the authentication flags, so
the claimed ordering does not match. -/
theorem checkout_order_counterexample :
    (checkoutArgs id "http://h/r" (some "wc") {}).map (fun a => svnFinalArgs cfg0 a false) ≠
      .ok ["checkout", "--username", "alice", "--password", "secret123", "--non-interactive",
           "http://h/r", "wc"] ∧
    (checkoutArgs id "http://h/r" (some "wc") {}).map (fun a => svnFinalArgs cfg0 a false) =
      .ok ["checkout", "http://h/r", "wc", "--username", "alice", "--password", "secret123",
           "--non-interactive"] := by
  constructor
  · decide
  · decide

/-- C3 (amended): the final token list is ordered subcommand first, then
the operation's option flags in the source's fixed order, then the
positional URL/path arguments, and the authentication flags appended
last. -/
theorem checkout_final_args_order
    (normalize : String → String) (config : SvnConfig) (url : String) (path : Option String)
    (options : SvnCheckoutOptions)
    (hu : validateSvnUrl url = true)
    (hp : ∀ p, path = some p → p ≠ "" → validatePath p = true) :
    (checkoutArgs normalize url path options).map (fun a => svnFinalArgs config a false) =
      .ok (["checkout"]
        ++ (match options.revision with
            | some r =>
              if checkoutRevisionTruthy r then ["--revision", checkoutRevisionToString r] else []
            | none => [])
        ++ (match options.depth with
            | some d => if d != "" then ["--depth", d] else []
            | none => [])
        ++ (if options.force then ["--force"] else [])
        ++ (if options.ignoreExternals then ["--ignore-externals"] else [])
        ++ [url]
        ++ (match path with
            | some p => if p = "" then [] else [normalize p]
            | none => [])
        ++ buildAuthArgs config false) := by
  unfold checkoutArgs
  rw [if_pos hu]
  rcases path with _ | p <;> dsimp only
  · simp [svnFinalArgs, Except.map, List.append_assoc]
  · by_cases hp0 : p = ""
    · simp [hp0, svnFinalArgs, Except.map, List.append_assoc]
    · rw [if_neg hp0, if_pos (hp p rfl hp0)]
      simp [hp0, svnFinalArgs, Except.map, List.append_assoc]

/-- C3 witness: the amended ordering at a concrete checkout with a force
flag, a positional path, and configured credentials. -/
theorem checkout_final_args_order_witness :
    (checkoutArgs id "svn://host/repo" (some "dir") { force := true }).map
        (fun a => svnFinalArgs cfg0 a false) =
      .ok (["checkout"] ++ [] ++ [] ++ ["--force"] ++ [] ++ ["svn://host/repo"] ++ ["dir"]
        ++ buildAuthArgs cfg0 false) :=
  checkout_final_args_order id cfg0 "svn://host/repo" (some "dir") { force := true }
    (by decide) (by intro p hp hne; cases hp; decide)

/-! ### C4 — remote URLs are never rejected as invalid paths -/

/-- C4: for every URL the validator accepts, `getInfo` builds exactly
`["info", url]` (no local-path normalization — the result does not depend
on the `normalize` function), and its outcome is entirely determined by
the subprocess outcome on those arguments: no invalid-path validation
error can arise. -/
theorem getInfo_url_no_validation_error
    (env : SvnExecEnv) (normalize : String → String) (config : SvnConfig) (url : String)
    (hu : validateSvnUrl url = true) :
    getInfoArgs normalize (some url) = .ok ["info", url] ∧
    getInfo env normalize config (some url) =
      (match runSvn env config ["info", url] with
       | .ok r => .ok (infoEnvelope r)
       | .error e => .error (handleSvnError config e "get SVN info")) := by
  have hne : url ≠ "" := by
    rintro rfl
    have : validateSvnUrl "" = false := by decide
    rw [this] at hu
    cases hu
  have hargs : getInfoArgs normalize (some url) = .ok ["info", url] := by
    unfold getInfoArgs
    dsimp only
    rw [if_neg hne, if_pos hu]
  refine ⟨hargs, ?_⟩
  unfold getInfo
  rw [hargs]
  dsimp only
  cases hr : runSvn env config ["info", url] with
  | error e => rfl
  | ok r => rfl

/-- C4 witness: the theorem at the URL from the repository's issue-3
regression test, in an environment where the subprocess then fails for
network reasons. -/
theorem getInfo_url_no_validation_error_witness :
    getInfoArgs id (some "http://host/repo/trunk") = .ok ["info", "http://host/repo/trunk"] ∧
    getInfo envFail id cfg0 (some "http://host/repo/trunk") =
      (match runSvn envFail cfg0 ["info", "http://host/repo/trunk"] with
       | .ok r => .ok (infoEnvelope r)
       | .error e => .error (handleSvnError cfg0 e "get SVN info")) :=
  getInfo_url_no_validation_error envFail id cfg0 "http://host/repo/trunk" (by decide)

/-! ### C5 — status fallback to the local-only invocation -/

/-- C5: when `showAll` is set and the remote-aware invocation (the one
carrying `--show-updates`) rejects for any reason, `getStatus` behaves
exactly as the local-only call does: the local result or its error is
what propagates, and the first failure is not surfaced. -/
theorem getStatus_show_updates_fallback
    (env : SvnExecEnv) (normalize : String → String) (config : SvnConfig) (path : Option String)
    (a : List String) (e : SvnError)
    (hargs : statusBaseArgs normalize path = .ok a)
    (hfail : runSvn env config (a ++ ["--show-updates"]) = .error e) :
    getStatus env normalize config path true = getStatus env normalize config path false := by
  unfold getStatus
  rw [hargs]
  dsimp only
  rw [if_pos rfl, if_neg (show ¬false = true by decide), hfail]

/-- C5 witness: the fallback at a concrete environment where
`status --show-updates` exits non-zero and the local `status` succeeds. -/
theorem getStatus_show_updates_fallback_witness :
    getStatus envStatus id cfgAnon none true = getStatus envStatus id cfgAnon none false :=
  getStatus_show_updates_fallback envStatus id cfgAnon none ["status"]
    { message := svnFailureMessage cfgAnon ["status", "--show-updates"] false (some 1)
      code := some 1
      stderr := some "svn: E175002: Unable to connect"
      command := some (svnCommandString cfgAnon
        (svnFinalArgs cfgAnon ["status", "--show-updates"] false)) }
    rfl (by decide)

/-! ### C6 — validatePath and the reserved characters -/

/-- A string accepted by the drive-prefix pattern starts with an ASCII
letter followed by a colon. -/
theorem winAbs_shape (s : String) (h : windowsAbsolutePathPattern s = true) :
    ∃ d sl rest, s.data = d :: ':' :: sl :: rest ∧ isAsciiLetter d = true := by
  unfold windowsAbsolutePathPattern at h
  cases hl : s.data with
  | nil => rw [hl] at h; simp at h
  | cons d t =>
    cases ht : t with
    | nil => rw [hl, ht] at h; simp at h
    | cons c2 t2 =>
      cases ht2 : t2 with
      | nil => rw [hl, ht, ht2] at h; simp at h
      | cons sl rest =>
        rw [hl, ht, ht2] at h
        simp only [Bool.and_eq_true, decide_eq_true_eq] at h
        obtain ⟨⟨hd, rfl⟩, -⟩ := h
        exact ⟨d, sl, rest, rfl, hd⟩

/-- C6: every string containing one of the six reserved characters
`< > " | ? *` fails validation (such a character can never be part of the
two-character drive prefix, which consists of a letter and a colon), while
the drive-prefix carve-out accepts `C:\\x` and still rejects
`C:\\fi:le.txt`. -/
theorem validatePath_rejects_reserved_chars :
    (∀ (s : String) (c : Char), c ∈ s.data →
        c ∈ ['<', '>', Char.ofNat 34, '|', '?', '*'] → validatePath s = false) ∧
    validatePath "C:\\x" = true ∧ validatePath "C:\\fi:le.txt" = false := by
  refine ⟨?_, by decide, by decide⟩
  intro s c hc hset
  have hfacts : invalidPathChar c = true ∧ isAsciiLetter c = false ∧ c ≠ ':' := by
    simp only [List.mem_cons, List.not_mem_nil, or_false] at hset
    rcases hset with rfl | rfl | rfl | rfl | rfl | rfl <;>
      exact ⟨by decide, by decide, by decide⟩
  unfold validatePath
  by_cases hw : windowsAbsolutePathPattern s = true
  · rw [if_pos hw]
    obtain ⟨d, sl, rest, hsd, hd⟩ := winAbs_shape s hw
    rw [hsd]
    have hcrest : c ∈ sl :: rest := by
      rw [hsd] at hc
      rcases List.mem_cons.mp hc with h | hc' 
      · rw [← h, hfacts.2.1] at hd
        exact absurd hd (by decide)
      rcases List.mem_cons.mp hc' with h2 | hc2' 
      · exact absurd h2 hfacts.2.2
      · exact hc2' 
    have hany : (List.drop 2 (d :: ':' :: sl :: rest)).any invalidPathChar = true :=
      List.any_eq_true.mpr ⟨c, hcrest, hfacts.1⟩
    rw [hany]
    rfl
  · rw [if_neg hw]
    have hany : s.data.any invalidPathChar = true :=
      List.any_eq_true.mpr ⟨c, hc, hfacts.1⟩
    rw [hany]
    rfl

/-- C6 witness: the universal part applied to the invalid input from the
repository's own test-suite. -/
theorem validatePath_rejects_reserved_chars_witness :
    validatePath "file<with>invalid:chars*" = false :=
  validatePath_rejects_reserved_chars.1 "file<with>invalid:chars*" '<' (by decide) (by decide)

/-! ### C7 — the log parser skips malformed blocks -/

/-- Splitting a line list free of separator lines yields that single
piece. -/
theorem splitSepLines_no_sep (m : List String) (hm : sep72 ∉ m) :
    splitSepLines m = [m] := by
  induction m with
  | nil => rfl
  | cons x r ih =>
    have hx : ¬x = sep72 := fun h => hm (h ▸ List.mem_cons_self x r)
    have hr : sep72 ∉ r := fun h => hm (List.mem_cons_of_mem _ h)
    unfold splitSepLines
    rw [if_neg hx, ih hr]

/-- Splitting around one separator line yields the piece before it and
the split of the rest. -/
theorem splitSepLines_append (g m : List String) (hg : sep72 ∉ g) :
    splitSepLines (g ++ sep72 :: m) = g :: splitSepLines m := by
  induction g with
  | nil =>
    show splitSepLines (sep72 :: m) = [] :: splitSepLines m
    simp [splitSepLines]
  | cons x r ih =>
    have hx : ¬x = sep72 := fun h => hg (h ▸ List.mem_cons_self x r)
    have hr : sep72 ∉ r := fun h => hg (List.mem_cons_of_mem _ h)
    show splitSepLines (x :: (r ++ sep72 :: m)) = (x :: r) :: splitSepLines m
    simp [splitSepLines, hx, ih hr]

/-- C7: for every log text made of one well-formed block (at least two
lines, header matching the `r<rev> | author | date | details` pattern)
and one malformed block (non-blank, first line not matching the header
pattern), separated by the 72-dash separator line, the parser returns
exactly the one entry of the well-formed block; the malformed block is
dropped silently and the parse never fails. -/
theorem parseLogOutput_skips_malformed
    (output : String) (g m : List String) (rev : Nat) (author date : String)
    (h0 : jsTrim output ≠ "")
    (h1 : splitLines output = g ++ sep72 :: m)
    (hg : sep72 ∉ g) (hm : sep72 ∉ m)
    (hglen : 2 ≤ (splitLines (jsTrim (joinWith "\n" g))).length)
    (hghead : logHeaderMatch ((splitLines (jsTrim (joinWith "\n" g))).headD "") =
      some (rev, author, date))
    (hmne : jsTrim (joinWith "\n" m) ≠ "")
    (hmhead : logHeaderMatch ((splitLines (jsTrim (joinWith "\n" m))).headD "") = none) :
    parseLogOutput output =
      [{ revision := rev, author := author, date := date
         message :=
           if jsTrim (joinWith "\n" ((splitLines (jsTrim (joinWith "\n" g))).drop 2)) = ""
           then "Sin mensaje"
           else jsTrim (joinWith "\n" ((splitLines (jsTrim (joinWith "\n" g))).drop 2)) }] := by
  have hgne : jsTrim (joinWith "\n" g) ≠ "" := by
    intro h
    rw [h] at hglen
    have hone : (splitLines "").length = 1 := by decide
    rw [hone] at hglen
    exact absurd hglen (by decide)
  have hgt : (jsTrim (joinWith "\n" g) != "") = true := by simpa using hgne
  have hmt : (jsTrim (joinWith "\n" m) != "") = true := by simpa using hmne
  have hblockG : parseLogBlock (joinWith "\n" g) =
      some { revision := rev, author := author, date := date
             message :=
               if jsTrim (joinWith "\n" ((splitLines (jsTrim (joinWith "\n" g))).drop 2)) = ""
               then "Sin mensaje"
               else jsTrim (joinWith "\n" ((splitLines (jsTrim (joinWith "\n" g))).drop 2)) } := by
    unfold parseLogBlock
    rw [if_neg (Nat.not_lt.mpr hglen), hghead]
  have hblockM : parseLogBlock (joinWith "\n" m) = none := by
    unfold parseLogBlock
    by_cases hl : (splitLines (jsTrim (joinWith "\n" m))).length < 2
    · rw [if_pos hl]
    · rw [if_neg hl, hmhead]
  unfold parseLogOutput
  rw [if_neg h0, h1, splitSepLines_append g m hg, splitSepLines_no_sep m hm]
  simp [hgt, hmt, hblockG, hblockM]

/-- C7 witness: the theorem at a concrete text with one well-formed and
one malformed block. -/
theorem parseLogOutput_skips_malformed_witness :
    parseLogOutput (joinWith "\n"
        (["r5 | alice | 2024-01-02 | 1 line", "", "fix bug"] ++
          sep72 :: ["not a header", "oops"])) =
      [{ revision := 5, author := "alice", date := "2024-01-02", message := "fix bug" }] :=
  parseLogOutput_skips_malformed _
    ["r5 | alice | 2024-01-02 | 1 line", "", "fix bug"] ["not a header", "oops"]
    5 "alice" "2024-01-02"
    (by decide) (by decide) (by decide) (by decide) (by decide) (by decide) (by decide) (by decide)

/-! ### C8 — numeric fields of the info parser -/

/-- C8 counterexample: the claim states numeric fields parse as integers
or the record is considered malformed; but on `"Revision: abc"` the
parser stores the `NaN` result of `parseInt` (modelled `none`) in the
`revision` field and still returns the record as a valid `SvnInfo` — no
malformed-record signal exists in `parseInfoOutput`. -/
theorem parseInfoOutput_nan_counterexample :
    (parseInfoOutput "Revision: abc").revision = some none ∧
    (parseInfoOutput "Revision: 7").revision = some (some 7) := by
  constructor
  · decide
  · decide

/-- C8 (amended): the numeric fields receive exactly `parseInt` of the
trimmed value — an integer when the value has a leading integer literal,
and `NaN` (modelled `none`) otherwise — and the record is returned either
way; no malformed-ness check is performed. -/
theorem parseInfoOutput_numeric_fields
    (output lv v : String)
    (h1 : splitLines output = [lv]) :
    (splitColonSpace lv = ["Revision", v] →
      (parseInfoOutput output).revision = some (jsParseInt (jsTrim v))) ∧
    (splitColonSpace lv = ["Last Changed Rev", v] →
      (parseInfoOutput output).lastChangedRev = some (jsParseInt (jsTrim v))) := by
  constructor
  · intro h2
    unfold parseInfoOutput
    rw [h1]
    simp only [List.foldl_cons, List.foldl_nil]
    unfold infoStep
    rw [h2]
    simp only [List.headD_cons, List.tail_cons]
    rw [(by decide : jsTrim "Revision" = "Revision")]
    rw [if_neg (by decide), if_neg (by decide), if_neg (by decide), if_neg (by decide),
        if_neg (by decide), if_neg (by decide), if_pos rfl]
    simp [joinWith]
  · intro h2
    unfold parseInfoOutput
    rw [h1]
    simp only [List.foldl_cons, List.foldl_nil]
    unfold infoStep
    rw [h2]
    simp only [List.headD_cons, List.tail_cons]
    rw [(by decide : jsTrim "Last Changed Rev" = "Last Changed Rev")]
    rw [if_neg (by decide), if_neg (by decide), if_neg (by decide), if_neg (by decide),
        if_neg (by decide), if_neg (by decide), if_neg (by decide), if_neg (by decide),
        if_neg (by decide), if_neg (by decide), if_pos rfl]
    simp [joinWith]

/-- C8 witness: the amended theorem at the `NaN`-producing input. -/
theorem parseInfoOutput_numeric_fields_witness :
    (parseInfoOutput "Revision: abc").revision = some (jsParseInt (jsTrim "abc")) :=
  (parseInfoOutput_numeric_fields "Revision: abc" "Revision: abc" "abc" (by decide)).1 (by decide)

/-! ### C9 — the health check -/

/-- C9 counterexample: the claim states that a failing repository-access
sub-step yields a `success: false` envelope with the error text; but when
`getInfo` rejects inside `healthCheck`, the inner `try` swallows the
error and the returned envelope has `success: true` with no error text
(only `repositoryAccessible: false`). -/
theorem healthCheck_subfailure_counterexample :
    envC.infoResult = .error { message := "E175002 Unable to connect" } ∧
    (healthCheck envC cfg0).success = true ∧
    (healthCheck envC cfg0).error = none ∧
    ((healthCheck envC cfg0).data.map (fun d => d.repositoryAccessible)) = some (some false) := by
  refine ⟨rfl, by decide, by decide, by decide⟩

/-- C9 (amended): `healthCheck` always resolves to an envelope (it is a
total function of the sub-step outcomes); `success` is `false` exactly
when the executable is unavailable or the version query rejects — in the
latter case the envelope carries the rejection's message — while a failed
working-copy or repository-access check leaves `success = true` and is
reported only through the boolean flags. -/
theorem healthCheck_total_and_classified (env : HealthEnv) (config : SvnConfig) :
    ((healthCheck env config).success = false ↔
      (env.validateResult = false ∨ ∃ e, env.versionCmd = .error e)) ∧
    (∀ e, env.validateResult = true → env.versionCmd = .error e →
      healthCheck env config =
        { success := false, error := some e.message, command := "health-check",
          workingDirectory := config.workingDirectory }) := by
  rcases hv : env.validateResult <;> rcases hc : env.versionCmd with e | r <;>
    simp [healthCheck, hv, hc]

/-- C9 witness: the amended theorem's version-failure clause at a
concrete environment. -/
theorem healthCheck_total_and_classified_witness :
    healthCheck { validateResult := true, versionCmd := .error { message := "boom" },
                  workingCopyValid := false, infoResult := .ok () } cfg0 =
      { success := false, error := some "boom", command := "health-check",
        workingDirectory := "C:/ws" } :=
  (healthCheck_total_and_classified
    { validateResult := true, versionCmd := .error { message := "boom" },
      workingCopyValid := false, infoResult := .ok () } cfg0).2 { message := "boom" } rfl rfl

/-! ### C10 — the log limit flag -/

/-- `--limit` occurs among `["log"] ++ LT ++ RT ++ P` exactly when it
occurs in the limit-token group. -/
theorem limit_mem_helper (LT RT P : List String)
    (hR : "--limit" ∉ RT) (hP : "--limit" ∉ P) :
    ("--limit" ∈ ["log"] ++ LT ++ RT ++ P ↔ "--limit" ∈ LT) := by
  constructor
  · intro h
    rcases List.mem_append.mp h with h1 | hp
    · rcases List.mem_append.mp h1 with h2 | hrt
      · rcases List.mem_append.mp h2 with hlog | hlt
        · rcases List.mem_cons.mp hlog with he | he
          · exact absurd he (by decide)
          · exact absurd he (List.not_mem_nil _)
        · exact hlt
      · exact absurd hrt hR
    · exact absurd hp hP
  · intro h
    exact List.mem_append.mpr (Or.inl (List.mem_append.mpr (Or.inl (List.mem_append.mpr (Or.inr h)))))

/-- The three-group variant of `limit_mem_helper` (no positional path). -/
theorem limit_mem_helper2 (LT RT : List String) (hR : "--limit" ∉ RT) :
    ("--limit" ∈ ["log"] ++ LT ++ RT ↔ "--limit" ∈ LT) := by
  constructor
  · intro h
    rcases List.mem_append.mp h with h2 | hrt
    · rcases List.mem_append.mp h2 with hlog | hlt
      · rcases List.mem_cons.mp hlog with he | he
        · exact absurd he (by decide)
        · exact absurd he (List.not_mem_nil _)
      · exact hlt
    · exact absurd hrt hR
  · intro h
    exact List.mem_append.mpr (Or.inl (List.mem_append.mpr (Or.inr h)))

/-- `--limit` occurs in the limit-token group exactly for a strictly
positive limit. -/
theorem limit_tokens_mem (limit : Option Int) :
    ("--limit" ∈ (match limit with
      | some n => if 0 < n then ["--limit", toString n] else []
      | none => ([] : List String))) ↔ ∃ n, limit = some n ∧ 0 < n := by
  rcases limit with _ | n <;> dsimp only
  · simp
  · by_cases hn : 0 < n
    · rw [if_pos hn]
      constructor
      · intro _
        exact ⟨n, rfl, hn⟩
      · intro _
        exact List.mem_cons_self _ _
    · rw [if_neg hn]
      constructor
      · intro hx
        exact absurd hx (List.not_mem_nil _)
      · rintro ⟨n2, hn2, hpos⟩
        rw [Option.some.injEq] at hn2
        exact absurd (hn2 ▸ hpos) hn

/-- C10: the built log argument list contains the `--limit` token exactly
when the limit argument is a strictly positive number; zero, negative and
absent limits are silently omitted rather than rejected (the hypotheses
only rule out the pathological revision/path values that are themselves
the literal string `--limit`). -/
theorem getLogArgs_limit_iff
    (normalize : String → String) (path : Option String) (limit : Option Int)
    (revision : Option String) (ts : List String)
    (hp : ∀ p, path = some p → normalize p ≠ "--limit")
    (hr : revision ≠ some "--limit")
    (h : getLogArgs normalize path limit revision = .ok ts) :
    "--limit" ∈ ts ↔ ∃ n, limit = some n ∧ 0 < n := by
  unfold getLogArgs at h
  have hR : "--limit" ∉ (match revision with
      | some r => if r != "" then ["--revision", r] else []
      | none => ([] : List String)) := by
    rcases revision with _ | r <;> dsimp only
    · exact List.not_mem_nil _
    · by_cases hre : (r != "") = true
      · rw [if_pos hre]
        intro hx
        rcases List.mem_cons.mp hx with he | he
        · exact absurd he (by decide)
        rcases List.mem_cons.mp he with he2 | he2
        · exact hr (by rw [← he2])
        · exact absurd he2 (List.not_mem_nil _)
      · rw [if_neg hre]
        exact List.not_mem_nil _
  rcases path with _ | p <;> dsimp only at h
  · rw [Except.ok.injEq] at h
    subst h
    rw [limit_mem_helper2 _ _ hR, limit_tokens_mem]
  · by_cases hp0 : p = ""
    · rw [if_pos hp0, Except.ok.injEq] at h
      subst h
      rw [limit_mem_helper2 _ _ hR, limit_tokens_mem]
    · rw [if_neg hp0] at h
      by_cases hvp : validatePath p = true
      · rw [if_pos hvp, Except.ok.injEq] at h
        subst h
        have hP : "--limit" ∉ [normalize p] := by
          intro hx
          rcases List.mem_cons.mp hx with he | he
          · exact hp p rfl he.symm
          · exact absurd he (List.not_mem_nil _)
        rw [limit_mem_helper _ _ _ hR hP, limit_tokens_mem]
      · rw [if_neg hvp] at h
        cases h

/-- C10 witness: the iff at a positive limit. -/
theorem getLogArgs_limit_iff_witness :
    ("--limit" ∈ ["log", "--limit", "5"] ↔ ∃ n : Int, (some 5 : Option Int) = some n ∧ 0 < n) :=
  getLogArgs_limit_iff id none (some 5) none ["log", "--limit", "5"]
    (by intro p hp; cases hp) (by decide) (by decide)

end Svn
